import Mathlib

/-!
Verification of the solph network data model (`oemof/solph/network.py`):
the `Flow` constructor with its attribute-resolution loop and ordered
validation pipeline, the transformer `conversion_factors` wrapping, the
`EnergySystem` grouping-list assembly, and the time-series abstraction
`sequence` from the plumbing module.
-/

namespace Solph

/-- Dynamic Python values as they occur in this module: `None`, booleans,
integers (integer numerics suffice for every property proved here), lists,
the emulated constant sequence produced by the plumbing module, and opaque
descriptor objects (`Investment`, `BinaryFlow`, `Bus` instances, ...)
identified by a tag. -/
inductive PyVal where
  | none : PyVal
  | bool (b : Bool) : PyVal
  | int (n : Int) : PyVal
  | list (xs : List PyVal) : PyVal
  | seqConst (v : PyVal) : PyVal
  | obj (tag : Nat) : PyVal

/-- Python truthiness for the values above, as used by `if self.fixed`,
`if self.investment` and `if self.binary` in `Flow.__init__`.  The emulated
constant sequence is a `UserList` that starts out empty, hence falsy. -/
def PyVal.truthy : PyVal → Bool
  | PyVal.none => false
  | PyVal.bool b => b
  | PyVal.int n => n != 0
  | PyVal.list xs => !xs.isEmpty
  | PyVal.seqConst _ => false
  | PyVal.obj _ => true

/-- A value that is neither an explicit list nor an already-wrapped
constant sequence: a "single value" in the sense of the time-series
abstraction. -/
def PyVal.isScalar : PyVal → Bool
  | PyVal.list _ => false
  | PyVal.seqConst _ => false
  | _ => true

/-- Modelled from the spec: the function `sequence` of
`oemof/solph/plumbing.py` is imported by `network.py` but the plumbing
module itself is not among the sources at hand.  Per the spec's
time-series abstraction, an input that is already sequence-shaped (an
explicit list, or an emulated constant sequence) is returned with
indexing delegating directly, and any single value is turned into a
constant sequence that returns that value at every index. -/
def sequence : PyVal → PyVal
  | PyVal.list xs => PyVal.list xs
  | PyVal.seqConst v => PyVal.seqConst v
  | v => PyVal.seqConst v

/-- Failure modes of integer indexing into a value. -/
inductive SeqError where
  | indexOutOfRange : SeqError
  | notIndexable : SeqError
  deriving DecidableEq

/-- Integer-index read access: an explicit list is bounds-checked and
fails with `indexOutOfRange` beyond its length; a constant sequence
returns its value at every index; any other value is not indexable. -/
def seqIndex : PyVal → Nat → Except SeqError PyVal
  | PyVal.list xs, i =>
      if h : i < xs.length then Except.ok (xs.get ⟨i, h⟩)
      else Except.error SeqError.indexOutOfRange
  | PyVal.seqConst v, _ => Except.ok v
  | _, _ => Except.error SeqError.notIndexable

/-! ## The `Flow` constructor (`Flow.__init__`) -/

/-- The `scalars` list of `Flow.__init__`. -/
def scalars : List String :=
  ["nominal_value", "fixed_costs", "summed_max", "summed_min",
   "investment", "binary", "discrete", "fixed"]

/-- The `sequences` list of `Flow.__init__`. -/
def sequences : List String :=
  ["actual_value", "positive_gradient", "negative_gradient",
   "variable_costs", "min", "max"]

/-- The `defaults` dictionary of `Flow.__init__`. -/
def defaults : List (String × PyVal) :=
  [("fixed", PyVal.bool false), ("min", PyVal.int 0), ("max", PyVal.int 1)]

/-- `kwargs.get(attribute, defaults.get(attribute))`, with Python's `get`
returning `None` when a key is missing from both dictionaries. -/
def rawValue (kwargs : List (String × PyVal)) (a : String) : PyVal :=
  match kwargs.lookup a with
  | some v => v
  | Option.none =>
      match defaults.lookup a with
      | some d => d
      | Option.none => PyVal.none

/-- The attribute-resolution loop of `Flow.__init__`: every attribute in
`set(scalars + sequences + list(kwargs))` is set, wrapped through
`sequence` exactly when it is named in `sequences`; attributes outside
that union are absent (`Option.none`). -/
def initAttrs (kwargs : List (String × PyVal)) (a : String) : Option PyVal :=
  if a ∈ sequences then some (sequence (rawValue kwargs a))
  else if a ∈ scalars then some (rawValue kwargs a)
  else kwargs.lookup a

/-- `setattr` on the dynamic attribute map. -/
def setAttr (attrs : String → Option PyVal) (k : String) (v : PyVal) :
    String → Option PyVal :=
  fun a => if a = k then some v else attrs a

/-- Truthiness of a stored attribute (an absent attribute is never
consulted by the constructor, so `false` there is immaterial). -/
def truthyA (attrs : String → Option PyVal) (k : String) : Bool :=
  match attrs k with
  | some v => v.truthy
  | Option.none => false

/-- The stored attribute `k` is the Python value `None` (identity
comparison `is None`). -/
def isNoneAttr (attrs : String → Option PyVal) (k : String) : Bool :=
  match attrs k with
  | some PyVal.none => true
  | _ => false

/-- `ValueError`s raised by `Flow.__init__`. -/
inductive ConfigurationError where
  | fixedToNone : ConfigurationError
  | investmentAndBinary : ConfigurationError
  deriving DecidableEq

/-- Warnings emitted by `Flow.__init__` via `warnings.warn`. -/
inductive FlowWarning where
  | nominalValueSetToNone : FlowWarning
  deriving DecidableEq

/-- Attributes right after the resolution loop. -/
def attrs0 (kwargs : List (String × PyVal)) : String → Option PyVal :=
  initAttrs kwargs

/-- The condition of `if self.fixed and self.actual_value is None`. -/
def fixedErrorCond (kwargs : List (String × PyVal)) : Bool :=
  truthyA (attrs0 kwargs) "fixed" && isNoneAttr (attrs0 kwargs) "actual_value"

/-- Attributes after the `elif self.fixed:` branch that overwrites `min`
and `max` with the constant sequences 0 and 1. -/
def attrs1 (kwargs : List (String × PyVal)) : String → Option PyVal :=
  if truthyA (attrs0 kwargs) "fixed" then
    setAttr (setAttr (attrs0 kwargs) "min" (sequence (PyVal.int 0)))
      "max" (sequence (PyVal.int 1))
  else attrs0 kwargs

/-- The condition of `if self.investment and self.nominal_value is not
None`. -/
def investmentClearsCond (kwargs : List (String × PyVal)) : Bool :=
  truthyA (attrs1 kwargs) "investment" &&
    !(isNoneAttr (attrs1 kwargs) "nominal_value")

/-- Attributes after `self.nominal_value = None` under an investment
descriptor. -/
def attrs2 (kwargs : List (String × PyVal)) : String → Option PyVal :=
  if investmentClearsCond kwargs then
    setAttr (attrs1 kwargs) "nominal_value" PyVal.none
  else attrs1 kwargs

/-- The condition of `if self.investment and self.binary`. -/
def mutexErrorCond (kwargs : List (String × PyVal)) : Bool :=
  truthyA (attrs2 kwargs) "investment" && truthyA (attrs2 kwargs) "binary"

/-- `Flow.__init__`: resolves the attributes, then runs the validation
pipeline in source order.  Returns the warnings emitted up to the point of
return or raise, together with either the raised `ValueError` or the
final attribute map of the constructed instance. -/
def Flow.init (kwargs : List (String × PyVal)) :
    List FlowWarning × Except ConfigurationError (String → Option PyVal) :=
  if fixedErrorCond kwargs then
    ([], Except.error ConfigurationError.fixedToNone)
  else
    let warns := if investmentClearsCond kwargs
      then [FlowWarning.nominalValueSetToNone] else []
    if mutexErrorCond kwargs then
      (warns, Except.error ConfigurationError.investmentAndBinary)
    else
      (warns, Except.ok (attrs2 kwargs))

/-- The error `Flow.__init__` raised, if any. -/
def ctorError (kwargs : List (String × PyVal)) : Option ConfigurationError :=
  match (Flow.init kwargs).2 with
  | Except.error e => some e
  | Except.ok _ => Option.none

/-- The warnings `Flow.__init__` emitted. -/
def flowWarnings (kwargs : List (String × PyVal)) : List FlowWarning :=
  (Flow.init kwargs).1

/-- Attribute `k` of the successfully constructed flow (absent when
construction failed). -/
def flowAttr (kwargs : List (String × PyVal)) (k : String) : Option PyVal :=
  match (Flow.init kwargs).2 with
  | Except.ok attrs => attrs k
  | Except.error _ => Option.none

/-- Indexing attribute `k` of the constructed flow at position `i`. -/
def flowAttrIndex (kwargs : List (String × PyVal)) (k : String) (i : Nat) :
    Option (Except SeqError PyVal) :=
  (flowAttr kwargs k).map (fun s => seqIndex s i)

/-! ## Transformers and the energy system -/

/-- `LinearTransformer.__init__`: the `conversion_factors` keyword (an
association of output buses, identified by tag, to raw values) is stored
with every value wrapped through `sequence`. -/
def LinearTransformer.conversionFactors (cf : List (Nat × PyVal)) :
    List (Nat × PyVal) :=
  cf.map (fun kv => (kv.1, sequence kv.2))

/-- `LinearN1Transformer.__init__`: identical wrapping of the
`conversion_factors` keyword. -/
def LinearN1Transformer.conversionFactors (cf : List (Nat × PyVal)) :
    List (Nat × PyVal) :=
  cf.map (fun kv => (kv.1, sequence kv.2))

/-- `EnergySystem.__init__`: the effective grouping list handed to the
core energy system is `GROUPINGS + [custom_grouping] +
kwargs.get('groupings', [])`, with the package-level `GROUPINGS` and
`custom_grouping` (defined outside `network.py`) taken as parameters. -/
def EnergySystem.effectiveGroupings {α : Type} (GROUPINGS : List α)
    (customGrouping : α) (userGroupings : Option (List α)) : List α :=
  GROUPINGS ++ [customGrouping] ++ userGroupings.getD []

/-! ## Concrete example inputs -/

/-- The spec's fixed-flow example
`Flow(actual_value=[10, 4, 4], fixed=True, variable_costs=5)`, with an
additional caller-supplied `min` to exercise the overwrite. -/
def kwFixedExample : List (String × PyVal) :=
  [("actual_value", PyVal.list [PyVal.int 10, PyVal.int 4, PyVal.int 4]),
   ("fixed", PyVal.bool true), ("variable_costs", PyVal.int 5),
   ("min", PyVal.int 7)]

/-- `Flow(investment=<non-none>, nominal_value=100)`. -/
def kwInvestmentExample : List (String × PyVal) :=
  [("investment", PyVal.obj 1), ("nominal_value", PyVal.int 100)]

/-- `Flow(investment=<non-none>, binary=<non-none>)`. -/
def kwInvestmentBinaryExample : List (String × PyVal) :=
  [("investment", PyVal.obj 1), ("binary", PyVal.obj 2)]

/-- `Flow(investment=<non-none>, binary=<non-none>, nominal_value=100)`. -/
def kwInvestmentBinaryNominalExample : List (String × PyVal) :=
  [("investment", PyVal.obj 1), ("binary", PyVal.obj 2),
   ("nominal_value", PyVal.int 100)]

/-- `Flow(fixed=True, summed_min=2)`: `fixed` set with no `actual_value`. -/
def kwNoActualExample : List (String × PyVal) :=
  [("fixed", PyVal.bool true), ("summed_min", PyVal.int 2)]

/-- A construction mixing an unrecognized option, a recognized scalar and
a recognized sequence-typed option. -/
def kwMixedExample : List (String × PyVal) :=
  [("my_option", PyVal.int 42), ("summed_max", PyVal.int 3),
   ("variable_costs", PyVal.int 5)]

/-- `conversion_factors={busA: 4, busB: [1, 2, 3]}` with buses tagged 1
and 2. -/
def cfExample : List (Nat × PyVal) :=
  [(1, PyVal.int 4), (2, PyVal.list [PyVal.int 1, PyVal.int 2, PyVal.int 3])]

/-! ## General lemmas -/

theorem sequence_ne_none (v : PyVal) : sequence v ≠ PyVal.none := by
  cases v <;> simp [sequence]

theorem seqIndex_seqConst (v : PyVal) (i : Nat) :
    seqIndex (PyVal.seqConst v) i = Except.ok v := rfl

theorem seqIndex_sequence_scalar (v : PyVal) (hv : v.isScalar = true)
    (i : Nat) : seqIndex (sequence v) i = Except.ok v := by
  cases v <;> simp_all [PyVal.isScalar, sequence, seqIndex]

theorem seqIndex_sequence_list_lt (xs : List PyVal) (i : Nat)
    (h : i < xs.length) :
    seqIndex (sequence (PyVal.list xs)) i = Except.ok (xs.get ⟨i, h⟩) := by
  simp [sequence, seqIndex, h]

theorem seqIndex_sequence_list_ge (xs : List PyVal) (i : Nat)
    (h : xs.length ≤ i) :
    seqIndex (sequence (PyVal.list xs)) i =
      Except.error SeqError.indexOutOfRange := by
  simp [sequence, seqIndex, Nat.not_lt.mpr h]

theorem scalars_sequences_disjoint :
    ∀ a ∈ scalars, a ∉ sequences := by decide

theorem rawValue_of_lookup (kwargs : List (String × PyVal)) (a : String)
    (v : PyVal) (h : kwargs.lookup a = some v) : rawValue kwargs a = v := by
  unfold rawValue
  rw [h]

theorem attrs0_sequence_key (kwargs : List (String × PyVal)) (k : String)
    (hk : k ∈ sequences) :
    attrs0 kwargs k = some (sequence (rawValue kwargs k)) := by
  simp [attrs0, initAttrs, hk]

theorem attrs0_scalar_key (kwargs : List (String × PyVal)) (k : String)
    (hk1 : k ∈ scalars) (hk2 : k ∉ sequences) :
    attrs0 kwargs k = some (rawValue kwargs k) := by
  simp [attrs0, initAttrs, hk1, hk2]

theorem truthyA_of (attrs : String → Option PyVal) (k : String) (v : PyVal)
    (h : attrs k = some v) : truthyA attrs k = v.truthy := by
  unfold truthyA
  rw [h]

theorem isNoneAttr_of_sequence (attrs : String → Option PyVal) (k : String)
    (x : PyVal) (h : attrs k = some (sequence x)) :
    isNoneAttr attrs k = false := by
  unfold isNoneAttr
  rw [h]
  cases x <;> simp [sequence]

theorem isNoneAttr_of_some_ne (attrs : String → Option PyVal) (k : String)
    (v : PyVal) (h : attrs k = some v) (hv : v ≠ PyVal.none) :
    isNoneAttr attrs k = false := by
  unfold isNoneAttr
  rw [h]
  cases v
  · exact absurd rfl hv
  all_goals rfl

/-- The guard of the `fixed`-without-`actual_value` `ValueError` is never
true: the stored `actual_value` has been wrapped through `sequence` by the
resolution loop, so the identity comparison `is None` always fails. -/
theorem fixedErrorCond_false (kwargs : List (String × PyVal)) :
    fixedErrorCond kwargs = false := by
  have h : attrs0 kwargs "actual_value" =
      some (sequence (rawValue kwargs "actual_value")) :=
    attrs0_sequence_key kwargs "actual_value" (by decide)
  unfold fixedErrorCond
  rw [isNoneAttr_of_sequence _ _ _ h, Bool.and_false]

theorem Flow.init_eq (kwargs : List (String × PyVal)) :
    Flow.init kwargs =
      (if investmentClearsCond kwargs then [FlowWarning.nominalValueSetToNone]
       else [],
       if mutexErrorCond kwargs then
         Except.error ConfigurationError.investmentAndBinary
       else Except.ok (attrs2 kwargs)) := by
  unfold Flow.init
  rw [fixedErrorCond_false]
  simp only [Bool.false_eq_true, if_false]
  split <;> rfl

theorem ctorError_eq (kwargs : List (String × PyVal)) :
    ctorError kwargs =
      if mutexErrorCond kwargs then
        some ConfigurationError.investmentAndBinary
      else Option.none := by
  unfold ctorError
  rw [Flow.init_eq]
  by_cases hm : mutexErrorCond kwargs <;> simp [hm]

theorem flowWarnings_eq (kwargs : List (String × PyVal)) :
    flowWarnings kwargs =
      if investmentClearsCond kwargs then [FlowWarning.nominalValueSetToNone]
      else [] := by
  unfold flowWarnings
  rw [Flow.init_eq]

theorem flowAttr_eq (kwargs : List (String × PyVal)) (k : String)
    (hm : mutexErrorCond kwargs = false) :
    flowAttr kwargs k = attrs2 kwargs k := by
  unfold flowAttr
  rw [Flow.init_eq, hm]
  simp

theorem attrs1_untouched (kwargs : List (String × PyVal)) (k : String)
    (h1 : k ≠ "min") (h2 : k ≠ "max") :
    attrs1 kwargs k = attrs0 kwargs k := by
  unfold attrs1
  split
  · simp [setAttr, h1, h2]
  · rfl

theorem attrs1_min_of_fixed (kwargs : List (String × PyVal))
    (h : truthyA (attrs0 kwargs) "fixed" = true) :
    attrs1 kwargs "min" = some (sequence (PyVal.int 0)) := by
  unfold attrs1
  rw [h]
  simp [setAttr]

theorem attrs1_max_of_fixed (kwargs : List (String × PyVal))
    (h : truthyA (attrs0 kwargs) "fixed" = true) :
    attrs1 kwargs "max" = some (sequence (PyVal.int 1)) := by
  unfold attrs1
  rw [h]
  simp [setAttr]

theorem attrs2_untouched (kwargs : List (String × PyVal)) (k : String)
    (h : k ≠ "nominal_value") :
    attrs2 kwargs k = attrs1 kwargs k := by
  unfold attrs2
  split
  · simp [setAttr, h]
  · rfl

theorem attrs2_nominal_of_clears (kwargs : List (String × PyVal))
    (h : investmentClearsCond kwargs = true) :
    attrs2 kwargs "nominal_value" = some PyVal.none := by
  unfold attrs2
  rw [h]
  simp [setAttr]

theorem mutex_false_of_ok (kwargs : List (String × PyVal))
    (h : ctorError kwargs = Option.none) : mutexErrorCond kwargs = false := by
  cases hm : mutexErrorCond kwargs
  · rfl
  · rw [ctorError_eq, hm] at h
    simp at h

theorem truthyA_fixed_of_lookup (kwargs : List (String × PyVal))
    (h : kwargs.lookup "fixed" = some (PyVal.bool true)) :
    truthyA (attrs0 kwargs) "fixed" = true := by
  have h0 := attrs0_scalar_key kwargs "fixed" (by decide) (by decide)
  rw [rawValue_of_lookup _ _ _ h] at h0
  rw [truthyA_of _ _ _ h0]
  rfl

theorem initAttrs_nodefault_sequence_none (kwargs : List (String × PyVal))
    (k : String) (hseq : k ∈ sequences)
    (hdef : defaults.lookup k = Option.none)
    (h : kwargs.lookup k = Option.none) :
    initAttrs kwargs k = some (PyVal.seqConst PyVal.none) := by
  have h0 : initAttrs kwargs k = some (sequence (rawValue kwargs k)) :=
    attrs0_sequence_key kwargs k hseq
  rw [h0]
  unfold rawValue
  rw [h, hdef]
  rfl

theorem lookup_map_sequence (cf : List (Nat × PyVal)) (k : Nat) :
    (cf.map (fun kv => (kv.1, sequence kv.2))).lookup k =
      (cf.lookup k).map sequence := by
  induction cf with
  | nil => rfl
  | cons hd tl ih =>
      obtain ⟨a, b⟩ := hd
      simp only [List.map, List.lookup]
      cases h : k == a <;> simp [h, ih]

/-! ## Claims -/

/-- Claim C1: the spec says `Flow(fixed=True)` with no `actual_value`
must fail with a `ConfigurationError` and produce no instance.  The code
does not: the resolution loop stores `sequence(None)` (a constant
sequence broadcasting `None`), so the subsequent `is None` comparison
fails and construction succeeds, returning an instance whose
`actual_value` broadcasts `None`, with no warning and no error. -/
theorem flow_fixed_without_value_still_constructs :
    ctorError [("fixed", PyVal.bool true)] = Option.none ∧
    flowAttr [("fixed", PyVal.bool true)] "actual_value" =
      some (PyVal.seqConst PyVal.none) ∧
    flowWarnings [("fixed", PyVal.bool true)] = [] :=
  ⟨rfl, rfl, rfl⟩

/-- Claim C2: for every flow constructed with `fixed=True` and a present
(non-`None`) `actual_value`, the resulting `min` and `max` attributes are
the constant sequences 0 and 1, returning 0 resp. 1 at every index,
whatever `min`/`max` the caller supplied. -/
theorem flow_fixed_forces_unit_bounds (kwargs : List (String × PyVal))
    (v : PyVal) (i : Nat)
    (hf : kwargs.lookup "fixed" = some (PyVal.bool true))
    (ha : kwargs.lookup "actual_value" = some v)
    (hv : v ≠ PyVal.none)
    (hok : ctorError kwargs = Option.none) :
    flowAttr kwargs "min" = some (PyVal.seqConst (PyVal.int 0)) ∧
    flowAttr kwargs "max" = some (PyVal.seqConst (PyVal.int 1)) ∧
    flowAttrIndex kwargs "min" i = some (Except.ok (PyVal.int 0)) ∧
    flowAttrIndex kwargs "max" i = some (Except.ok (PyVal.int 1)) := by
  have hm := mutex_false_of_ok kwargs hok
  have hfix := truthyA_fixed_of_lookup kwargs hf
  have hmin : flowAttr kwargs "min" = some (PyVal.seqConst (PyVal.int 0)) := by
    rw [flowAttr_eq kwargs _ hm, attrs2_untouched kwargs _ (by decide),
        attrs1_min_of_fixed kwargs hfix]
    rfl
  have hmax : flowAttr kwargs "max" = some (PyVal.seqConst (PyVal.int 1)) := by
    rw [flowAttr_eq kwargs _ hm, attrs2_untouched kwargs _ (by decide),
        attrs1_max_of_fixed kwargs hfix]
    rfl
  refine ⟨hmin, hmax, ?_, ?_⟩
  · unfold flowAttrIndex
    rw [hmin]
    rfl
  · unfold flowAttrIndex
    rw [hmax]
    rfl

/-- Witness for claim C2 at the spec's example flow. -/
theorem flow_fixed_forces_unit_bounds_witness :
    kwFixedExample.lookup "fixed" = some (PyVal.bool true) ∧
    kwFixedExample.lookup "min" = some (PyVal.int 7) ∧
    ctorError kwFixedExample = Option.none ∧
    flowAttr kwFixedExample "min" = some (PyVal.seqConst (PyVal.int 0)) ∧
    flowAttrIndex kwFixedExample "max" 5 = some (Except.ok (PyVal.int 1)) :=
  ⟨rfl, rfl, rfl,
   (flow_fixed_forces_unit_bounds kwFixedExample
     (PyVal.list [PyVal.int 10, PyVal.int 4, PyVal.int 4]) 5 rfl rfl
     (fun h => PyVal.noConfusion h) rfl).1,
   (flow_fixed_forces_unit_bounds kwFixedExample
     (PyVal.list [PyVal.int 10, PyVal.int 4, PyVal.int 4]) 5 rfl rfl
     (fun h => PyVal.noConfusion h) rfl).2.2.2⟩

/-- Claim C3: for every flow constructed with a non-`None` investment
descriptor, a non-`None` `nominal_value` and no binary descriptor,
construction succeeds, the resulting `nominal_value` is `None`, and the
non-fatal advisory warning is emitted. -/
theorem flow_investment_clears_nominal_value (kwargs : List (String × PyVal))
    (j : Nat) (nv : PyVal)
    (hi : kwargs.lookup "investment" = some (PyVal.obj j))
    (hn : kwargs.lookup "nominal_value" = some nv)
    (hnv : nv ≠ PyVal.none)
    (hb : kwargs.lookup "binary" = Option.none) :
    ctorError kwargs = Option.none ∧
    flowAttr kwargs "nominal_value" = some PyVal.none ∧
    flowWarnings kwargs = [FlowWarning.nominalValueSetToNone] := by
  have hi0 : attrs0 kwargs "investment" = some (PyVal.obj j) := by
    rw [attrs0_scalar_key kwargs "investment" (by decide) (by decide),
        rawValue_of_lookup _ _ _ hi]
  have hi1 : attrs1 kwargs "investment" = some (PyVal.obj j) := by
    rw [attrs1_untouched kwargs _ (by decide) (by decide), hi0]
  have hn0 : attrs0 kwargs "nominal_value" = some nv := by
    rw [attrs0_scalar_key kwargs "nominal_value" (by decide) (by decide),
        rawValue_of_lookup _ _ _ hn]
  have hn1 : attrs1 kwargs "nominal_value" = some nv := by
    rw [attrs1_untouched kwargs _ (by decide) (by decide), hn0]
  have hclear : investmentClearsCond kwargs = true := by
    unfold investmentClearsCond
    rw [truthyA_of _ _ _ hi1, isNoneAttr_of_some_ne _ _ _ hn1 hnv]
    rfl
  have hb0 : attrs0 kwargs "binary" = some PyVal.none := by
    rw [attrs0_scalar_key kwargs "binary" (by decide) (by decide)]
    unfold rawValue
    rw [hb]
    rfl
  have hb2 : attrs2 kwargs "binary" = some PyVal.none := by
    rw [attrs2_untouched kwargs _ (by decide),
        attrs1_untouched kwargs _ (by decide) (by decide), hb0]
  have hmut : mutexErrorCond kwargs = false := by
    unfold mutexErrorCond
    rw [truthyA_of _ _ _ hb2]
    simp [PyVal.truthy]
  refine ⟨?_, ?_, ?_⟩
  · rw [ctorError_eq, hmut]
    rfl
  · rw [flowAttr_eq kwargs _ hmut, attrs2_nominal_of_clears kwargs hclear]
  · rw [flowWarnings_eq, hclear]
    rfl

/-- Witness for claim C3 at `Flow(investment=<obj>, nominal_value=100)`. -/
theorem flow_investment_clears_nominal_value_witness :
    kwInvestmentExample.lookup "investment" = some (PyVal.obj 1) ∧
    kwInvestmentExample.lookup "nominal_value" = some (PyVal.int 100) ∧
    ctorError kwInvestmentExample = Option.none ∧
    flowAttr kwInvestmentExample "nominal_value" = some PyVal.none ∧
    flowWarnings kwInvestmentExample = [FlowWarning.nominalValueSetToNone] :=
  ⟨rfl, rfl,
   (flow_investment_clears_nominal_value kwInvestmentExample 1 (PyVal.int 100)
     rfl rfl (fun h => PyVal.noConfusion h) rfl).1,
   (flow_investment_clears_nominal_value kwInvestmentExample 1 (PyVal.int 100)
     rfl rfl (fun h => PyVal.noConfusion h) rfl).2.1,
   (flow_investment_clears_nominal_value kwInvestmentExample 1 (PyVal.int 100)
     rfl rfl (fun h => PyVal.noConfusion h) rfl).2.2⟩

/-- Claim C4: every flow constructed with both a non-`None` investment
descriptor and a non-`None` binary descriptor fails with the
investment/binary mutual-exclusion `ValueError`. -/
theorem flow_investment_binary_error (kwargs : List (String × PyVal))
    (j b : Nat)
    (hi : kwargs.lookup "investment" = some (PyVal.obj j))
    (hbo : kwargs.lookup "binary" = some (PyVal.obj b)) :
    ctorError kwargs = some ConfigurationError.investmentAndBinary := by
  have hi0 : attrs0 kwargs "investment" = some (PyVal.obj j) := by
    rw [attrs0_scalar_key kwargs "investment" (by decide) (by decide),
        rawValue_of_lookup _ _ _ hi]
  have hi2 : attrs2 kwargs "investment" = some (PyVal.obj j) := by
    rw [attrs2_untouched kwargs _ (by decide),
        attrs1_untouched kwargs _ (by decide) (by decide), hi0]
  have hb0 : attrs0 kwargs "binary" = some (PyVal.obj b) := by
    rw [attrs0_scalar_key kwargs "binary" (by decide) (by decide),
        rawValue_of_lookup _ _ _ hbo]
  have hb2 : attrs2 kwargs "binary" = some (PyVal.obj b) := by
    rw [attrs2_untouched kwargs _ (by decide),
        attrs1_untouched kwargs _ (by decide) (by decide), hb0]
  have hmut : mutexErrorCond kwargs = true := by
    unfold mutexErrorCond
    rw [truthyA_of _ _ _ hi2, truthyA_of _ _ _ hb2]
    rfl
  rw [ctorError_eq, hmut]
  rfl

/-- Witness for claim C4 at `Flow(investment=<obj>, binary=<obj>)`. -/
theorem flow_investment_binary_error_witness :
    kwInvestmentBinaryExample.lookup "investment" = some (PyVal.obj 1) ∧
    kwInvestmentBinaryExample.lookup "binary" = some (PyVal.obj 2) ∧
    ctorError kwInvestmentBinaryExample =
      some ConfigurationError.investmentAndBinary :=
  ⟨rfl, rfl,
   flow_investment_binary_error kwInvestmentBinaryExample 1 2 rfl rfl⟩

/-- Claim C5: the validation pipeline runs in source order; in
particular a flow given investment, binary and a non-`None`
`nominal_value` all at once has the nominal-value-clearing advisory
already emitted when construction fails with the mutual-exclusion
error. -/
theorem flow_advisory_before_mutex_error (kwargs : List (String × PyVal))
    (j b : Nat) (nv : PyVal)
    (hi : kwargs.lookup "investment" = some (PyVal.obj j))
    (hbo : kwargs.lookup "binary" = some (PyVal.obj b))
    (hn : kwargs.lookup "nominal_value" = some nv)
    (hnv : nv ≠ PyVal.none) :
    flowWarnings kwargs = [FlowWarning.nominalValueSetToNone] ∧
    ctorError kwargs = some ConfigurationError.investmentAndBinary := by
  have hi0 : attrs0 kwargs "investment" = some (PyVal.obj j) := by
    rw [attrs0_scalar_key kwargs "investment" (by decide) (by decide),
        rawValue_of_lookup _ _ _ hi]
  have hi1 : attrs1 kwargs "investment" = some (PyVal.obj j) := by
    rw [attrs1_untouched kwargs _ (by decide) (by decide), hi0]
  have hi2 : attrs2 kwargs "investment" = some (PyVal.obj j) := by
    rw [attrs2_untouched kwargs _ (by decide), hi1]
  have hn1 : attrs1 kwargs "nominal_value" = some nv := by
    rw [attrs1_untouched kwargs _ (by decide) (by decide),
        attrs0_scalar_key kwargs "nominal_value" (by decide) (by decide),
        rawValue_of_lookup _ _ _ hn]
  have hclear : investmentClearsCond kwargs = true := by
    unfold investmentClearsCond
    rw [truthyA_of _ _ _ hi1, isNoneAttr_of_some_ne _ _ _ hn1 hnv]
    rfl
  have hb2 : attrs2 kwargs "binary" = some (PyVal.obj b) := by
    rw [attrs2_untouched kwargs _ (by decide),
        attrs1_untouched kwargs _ (by decide) (by decide),
        attrs0_scalar_key kwargs "binary" (by decide) (by decide),
        rawValue_of_lookup _ _ _ hbo]
  have hmut : mutexErrorCond kwargs = true := by
    unfold mutexErrorCond
    rw [truthyA_of _ _ _ hi2, truthyA_of _ _ _ hb2]
    rfl
  constructor
  · rw [flowWarnings_eq, hclear]
    rfl
  · rw [ctorError_eq, hmut]
    rfl

/-- Witness for claim C5 at
`Flow(investment=<obj>, binary=<obj>, nominal_value=100)`. -/
theorem flow_advisory_before_mutex_error_witness :
    kwInvestmentBinaryNominalExample.lookup "nominal_value" =
      some (PyVal.int 100) ∧
    flowWarnings kwInvestmentBinaryNominalExample =
      [FlowWarning.nominalValueSetToNone] ∧
    ctorError kwInvestmentBinaryNominalExample =
      some ConfigurationError.investmentAndBinary :=
  ⟨rfl,
   (flow_advisory_before_mutex_error kwInvestmentBinaryNominalExample 1 2
     (PyVal.int 100) rfl rfl rfl (fun h => PyVal.noConfusion h)).1,
   (flow_advisory_before_mutex_error kwInvestmentBinaryNominalExample 1 2
     (PyVal.int 100) rfl rfl rfl (fun h => PyVal.noConfusion h)).2⟩

/-- Claim C6: `sequence(v)` for a scalar `v` returns `v` at every
non-negative index; `sequence(L)` for an explicit list `L` returns `L[i]`
for `i < len(L)` and fails with `indexOutOfRange` for `i >= len(L)`. -/
theorem sequence_index_contract :
    (∀ (v : PyVal), v.isScalar = true → ∀ i : Nat,
        seqIndex (sequence v) i = Except.ok v) ∧
    (∀ (xs : List PyVal) (i : Nat) (h : i < xs.length),
        seqIndex (sequence (PyVal.list xs)) i = Except.ok (xs.get ⟨i, h⟩)) ∧
    (∀ (xs : List PyVal) (i : Nat), xs.length ≤ i →
        seqIndex (sequence (PyVal.list xs)) i =
          Except.error SeqError.indexOutOfRange) :=
  ⟨seqIndex_sequence_scalar, seqIndex_sequence_list_lt,
   seqIndex_sequence_list_ge⟩

/-- Witness for claim C6: a scalar broadcast far beyond any length, an
in-range list read, and an out-of-range list read. -/
theorem sequence_index_contract_witness :
    seqIndex (sequence (PyVal.int 7)) 99 = Except.ok (PyVal.int 7) ∧
    seqIndex (sequence (PyVal.list [PyVal.int 1, PyVal.int 2])) 1 =
      Except.ok (PyVal.int 2) ∧
    seqIndex (sequence (PyVal.list [PyVal.int 1])) 5 =
      Except.error SeqError.indexOutOfRange :=
  ⟨sequence_index_contract.1 (PyVal.int 7) rfl 99,
   sequence_index_contract.2.1 [PyVal.int 1, PyVal.int 2] 1 (by decide),
   sequence_index_contract.2.2 [PyVal.int 1] 5 (by decide)⟩

/-- Claim C7: both `LinearTransformer` and `LinearN1Transformer` store
`conversion_factors` with every supplied value wrapped through
`sequence`: a scalar value indexes to that scalar at every position, a
list value indexes to its elements. -/
theorem transformer_conversion_factors_contract (cf : List (Nat × PyVal))
    (k : Nat) (raw : PyVal) (hc : cf.lookup k = some raw) :
    (LinearTransformer.conversionFactors cf).lookup k =
      some (sequence raw) ∧
    (LinearN1Transformer.conversionFactors cf).lookup k =
      some (sequence raw) ∧
    (raw.isScalar = true → ∀ i : Nat,
        seqIndex (sequence raw) i = Except.ok raw) ∧
    (∀ (xs : List PyVal) (i : Nat) (h : i < xs.length),
        raw = PyVal.list xs →
        seqIndex (sequence raw) i = Except.ok (xs.get ⟨i, h⟩)) := by
  refine ⟨?_, ?_, ?_, ?_⟩
  · unfold LinearTransformer.conversionFactors
    rw [lookup_map_sequence, hc]
    rfl
  · unfold LinearN1Transformer.conversionFactors
    rw [lookup_map_sequence, hc]
    rfl
  · exact fun hs i => seqIndex_sequence_scalar raw hs i
  · intro xs i h he
    subst he
    exact seqIndex_sequence_list_lt xs i h

/-- Witness for claim C7 at `conversion_factors={busA: 4, busB: [1,2,3]}`:
the scalar factor indexes to 4 at position 9, the list factor to 3 at
position 2, in both transformer variants. -/
theorem transformer_conversion_factors_contract_witness :
    (LinearTransformer.conversionFactors cfExample).lookup 1 =
      some (PyVal.seqConst (PyVal.int 4)) ∧
    (LinearN1Transformer.conversionFactors cfExample).lookup 2 =
      some (PyVal.list [PyVal.int 1, PyVal.int 2, PyVal.int 3]) ∧
    seqIndex (sequence (PyVal.int 4)) 9 = Except.ok (PyVal.int 4) ∧
    seqIndex (sequence (PyVal.list [PyVal.int 1, PyVal.int 2, PyVal.int 3]))
      2 = Except.ok (PyVal.int 3) :=
  ⟨(transformer_conversion_factors_contract cfExample 1 (PyVal.int 4) rfl).1,
   (transformer_conversion_factors_contract cfExample 2
     (PyVal.list [PyVal.int 1, PyVal.int 2, PyVal.int 3]) rfl).2.1,
   (transformer_conversion_factors_contract cfExample 1 (PyVal.int 4)
     rfl).2.2.1 rfl 9,
   (transformer_conversion_factors_contract cfExample 2
     (PyVal.list [PyVal.int 1, PyVal.int 2, PyVal.int 3]) rfl).2.2.2
     [PyVal.int 1, PyVal.int 2, PyVal.int 3] 2 (by decide) rfl⟩

/-- Claim C8: the attribute-resolution loop stores a supplied
sequence-typed option wrapped through `sequence`, a supplied recognized
scalar option verbatim, and a supplied unrecognized option verbatim as a
scalar attribute under its key (still present verbatim on the
constructed instance). -/
theorem flow_attribute_resolution_contract (kwargs : List (String × PyVal))
    (k : String) (v : PyVal) (hk : kwargs.lookup k = some v) :
    (k ∈ sequences → initAttrs kwargs k = some (sequence v)) ∧
    (k ∈ scalars → initAttrs kwargs k = some v) ∧
    (k ∉ scalars → k ∉ sequences →
      initAttrs kwargs k = some v ∧
      (ctorError kwargs = Option.none → flowAttr kwargs k = some v)) := by
  refine ⟨?_, ?_, ?_⟩
  · intro hs
    have h0 : initAttrs kwargs k = some (sequence (rawValue kwargs k)) :=
      attrs0_sequence_key kwargs k hs
    rw [h0, rawValue_of_lookup _ _ _ hk]
  · intro hsc
    have h0 : initAttrs kwargs k = some (rawValue kwargs k) :=
      attrs0_scalar_key kwargs k hsc (scalars_sequences_disjoint k hsc)
    rw [h0, rawValue_of_lookup _ _ _ hk]
  · intro hsc hsq
    have h0 : initAttrs kwargs k = some v := by
      simp [initAttrs, hsc, hsq, hk]
    refine ⟨h0, fun hok => ?_⟩
    have hm := mutex_false_of_ok kwargs hok
    have hne_nom : k ≠ "nominal_value" := fun e => hsc (by rw [e]; decide)
    have hne_min : k ≠ "min" := fun e => hsq (by rw [e]; decide)
    have hne_max : k ≠ "max" := fun e => hsq (by rw [e]; decide)
    rw [flowAttr_eq kwargs k hm, attrs2_untouched kwargs k hne_nom,
        attrs1_untouched kwargs k hne_min hne_max]
    exact h0

/-- Witness for claim C8: a construction supplying `variable_costs`
(sequence-typed, wrapped), `summed_max` (scalar-typed, verbatim) and
`my_option` (unrecognized, verbatim and still on the instance). -/
theorem flow_attribute_resolution_contract_witness :
    initAttrs kwMixedExample "variable_costs" =
      some (PyVal.seqConst (PyVal.int 5)) ∧
    initAttrs kwMixedExample "summed_max" = some (PyVal.int 3) ∧
    initAttrs kwMixedExample "my_option" = some (PyVal.int 42) ∧
    flowAttr kwMixedExample "my_option" = some (PyVal.int 42) :=
  ⟨(flow_attribute_resolution_contract kwMixedExample "variable_costs"
     (PyVal.int 5) rfl).1 (by decide),
   (flow_attribute_resolution_contract kwMixedExample "summed_max"
     (PyVal.int 3) rfl).2.1 (by decide),
   ((flow_attribute_resolution_contract kwMixedExample "my_option"
     (PyVal.int 42) rfl).2.2 (by decide) (by decide)).1,
   ((flow_attribute_resolution_contract kwMixedExample "my_option"
     (PyVal.int 42) rfl).2.2 (by decide) (by decide)).2 rfl⟩

/-- Claim C9: the effective grouping list is the package built-ins
(`GROUPINGS` plus the custom-block grouping) followed by the
user-supplied groupings, and exactly the built-ins when the caller
supplies none. -/
theorem energy_system_groupings_order {α : Type} (GROUPINGS : List α)
    (customGrouping : α) (user : List α) :
    EnergySystem.effectiveGroupings GROUPINGS customGrouping (some user) =
      (GROUPINGS ++ [customGrouping]) ++ user ∧
    EnergySystem.effectiveGroupings GROUPINGS customGrouping Option.none =
      GROUPINGS ++ [customGrouping] := by
  constructor
  · rfl
  · simp [EnergySystem.effectiveGroupings]

/-- Witness for claim C9 on a two-element built-in list. -/
theorem energy_system_groupings_order_witness :
    EnergySystem.effectiveGroupings [0, 1] 2 (some [3]) = [0, 1, 2, 3] ∧
    EnergySystem.effectiveGroupings ([0, 1] : List Nat) 2 Option.none =
      [0, 1, 2] :=
  ⟨(energy_system_groupings_order [0, 1] 2 [3]).1.trans rfl,
   (energy_system_groupings_order [0, 1] 2 [3]).2.trans rfl⟩

/-- Claim C10: for each sequence-typed attribute with no declared default
— `actual_value`, `positive_gradient`, `negative_gradient`,
`variable_costs` — constructing a flow without supplying it stores
`sequence(None)`, a constant sequence broadcasting `None` at every index,
not the bare `None`; the fixed-without-value guard compares that stored
object against `None`, so the comparison is false and the `fixedToNone`
error is never raised. -/
theorem flow_nodefault_sequence_attrs_wrapped_not_bare_none
    (kwargs : List (String × PyVal)) (k : String)
    (hk : k ∈ ["actual_value", "positive_gradient", "negative_gradient",
               "variable_costs"])
    (h : kwargs.lookup k = Option.none) :
    initAttrs kwargs k = some (PyVal.seqConst PyVal.none) ∧
    isNoneAttr (attrs0 kwargs) k = false ∧
    (∀ i : Nat, seqIndex (PyVal.seqConst PyVal.none) i =
      Except.ok PyVal.none) ∧
    fixedErrorCond kwargs = false ∧
    ctorError kwargs ≠ some ConfigurationError.fixedToNone := by
  have hseq : k ∈ sequences := by fin_cases hk <;> decide
  have hdef : defaults.lookup k = Option.none := by fin_cases hk <;> rfl
  refine ⟨initAttrs_nodefault_sequence_none kwargs k hseq hdef h, ?_,
          fun i => rfl, fixedErrorCond_false kwargs, ?_⟩
  · exact isNoneAttr_of_sequence _ _ _ (attrs0_sequence_key kwargs k hseq)
  · rw [ctorError_eq]
    split <;> simp

/-- Witness for claim C10 at `Flow(fixed=True, summed_min=2)`: none of
the four no-default sequence-typed attributes is supplied, and each is
stored as a constant sequence broadcasting `None`. -/
theorem flow_nodefault_sequence_attrs_wrapped_not_bare_none_witness :
    kwNoActualExample.lookup "actual_value" = Option.none ∧
    initAttrs kwNoActualExample "actual_value" =
      some (PyVal.seqConst PyVal.none) ∧
    initAttrs kwNoActualExample "positive_gradient" =
      some (PyVal.seqConst PyVal.none) ∧
    initAttrs kwNoActualExample "negative_gradient" =
      some (PyVal.seqConst PyVal.none) ∧
    initAttrs kwNoActualExample "variable_costs" =
      some (PyVal.seqConst PyVal.none) ∧
    fixedErrorCond kwNoActualExample = false ∧
    ctorError kwNoActualExample ≠ some ConfigurationError.fixedToNone :=
  ⟨rfl,
   (flow_nodefault_sequence_attrs_wrapped_not_bare_none kwNoActualExample
     "actual_value" (by decide) rfl).1,
   (flow_nodefault_sequence_attrs_wrapped_not_bare_none kwNoActualExample
     "positive_gradient" (by decide) rfl).1,
   (flow_nodefault_sequence_attrs_wrapped_not_bare_none kwNoActualExample
     "negative_gradient" (by decide) rfl).1,
   (flow_nodefault_sequence_attrs_wrapped_not_bare_none kwNoActualExample
     "variable_costs" (by decide) rfl).1,
   (flow_nodefault_sequence_attrs_wrapped_not_bare_none kwNoActualExample
     "actual_value" (by decide) rfl).2.2.2.1,
   (flow_nodefault_sequence_attrs_wrapped_not_bare_none kwNoActualExample
     "actual_value" (by decide) rfl).2.2.2.2⟩

end Solph
